import Mathlib

/-!
Shallow embedding of the DocCrop backend: the income/expense ledger CRUD
routes of backend/app.py under their two storage backends (the embedded
SQLite store and the MongoDB document store), the scheme filter route, the
aggregate computation of the expenses page, and the pesticide scheduler of
backend/scheduler.py.

Conventions of the embedding:
- JSON payload fields are `Option` values; a missing key is `none`.
- A route handler returns `Except PyExn (state × Resp)`.  The `.error`
  constructor models a Python exception that the handler does not catch and
  that propagates out of the route (the framework then produces its generic
  error page); `.ok` carries the new backend state and the JSON response
  built by the handler itself.
- Machine floats of the source are modelled as rationals; `float(x)`
  coercion is `pyFloat`, restricted to plain decimal literals for strings.
- Python string operations used by the code (`strip`, `lower`) are modelled
  over character lists (`stripWs`, `Char.toLower`), covering the ASCII
  range that the data of this application uses.
- SQLite `ORDER BY` on a TEXT column and the MongoDB string sort both
  compare strings bytewise; for the ASCII data here this is the
  lexicographic order on the character list, used throughout.
-/

/-- JSON values, as far as the payloads and responses of the routes need. -/
inductive Json where
  | str (s : String)
  | num (q : ℚ)
  | bool (b : Bool)
  | null
  | obj (fields : List (String × Json))

/-- Python exceptions that the route handlers can raise and not catch. -/
inductive PyExn where
  | valueError
  | typeError
  | integrityError
deriving DecidableEq

/-- An HTTP response produced by a handler: status code and JSON body. -/
structure Resp where
  status : Nat
  body : Json

/-- Field lookup in a JSON object (none for non-objects or missing keys). -/
def jsonField (j : Json) (k : String) : Option Json :=
  match j with
  | .obj fs => fs.lookup k
  | _ => none

/-- Strip leading and trailing whitespace, the model of Python str.strip(). -/
def stripWs (cs : List Char) : List Char :=
  ((cs.dropWhile Char.isWhitespace).reverse.dropWhile Char.isWhitespace).reverse

/-- Decimal digits to a natural number, most significant first. -/
def digitsToNat (cs : List Char) : Nat :=
  cs.foldl (fun a c => 10 * a + (c.toNat - 48)) 0

/-- Model of Python float() applied to a string, restricted to plain decimal
literals: optional surrounding whitespace, an optional sign, digits with an
optional fractional part.  Exponent forms, inf and nan are outside the
model. -/
def pyFloatStr (s : String) : Option ℚ :=
  let t := stripWs s.toList
  let neg := t.head? == some '-'
  let rest := if neg || (t.head? == some '+') then t.tail else t
  let sign : ℚ := if neg then -1 else 1
  let ip := rest.takeWhile Char.isDigit
  let rest2 := rest.dropWhile Char.isDigit
  match rest2 with
  | [] => if ip.isEmpty then none else some (sign * (digitsToNat ip : ℚ))
  | '.' :: fr =>
      if fr.all Char.isDigit && !(ip.isEmpty && fr.isEmpty) then
        some (sign * ((digitsToNat ip : ℚ) + (digitsToNat fr : ℚ) / ((10 : ℚ) ^ fr.length)))
      else none
  | _ => none

/-- Model of float(payload.get('amount', 0)): a missing key defaults to 0,
numbers and booleans coerce, strings are parsed, null and objects raise
TypeError, unparseable strings raise ValueError. -/
def pyFloat : Option Json → Except PyExn ℚ
  | none => .ok 0
  | some (.num q) => .ok q
  | some (.bool b) => .ok (if b then 1 else 0)
  | some .null => .error .typeError
  | some (.obj _) => .error .typeError
  | some (.str s) =>
      match pyFloatStr s with
      | some q => .ok q
      | none => .error .valueError

/-- Model of Python int() applied to a string: optional whitespace, optional
sign, one or more decimal digits.  Underscore grouping and non-ASCII digits
are outside the model. -/
def pyIntStr (s : String) : Option ℤ :=
  let t := stripWs s.toList
  let neg := t.head? == some '-'
  let rest := if neg || (t.head? == some '+') then t.tail else t
  if !rest.isEmpty && rest.all Char.isDigit then
    some (if neg then -(digitsToNat rest : ℤ) else (digitsToNat rest : ℤ))
  else none

/-- Hexadecimal digit test, both cases. -/
def isHexDigit (c : Char) : Bool :=
  c.isDigit || (decide ('a' ≤ c) && decide (c ≤ 'f')) || (decide ('A' ≤ c) && decide (c ≤ 'F'))

/-- Validity of a string as a BSON ObjectId: exactly 24 hex characters.
bson.ObjectId raises InvalidId on anything else. -/
def isObjectIdHex (s : String) : Bool :=
  (s.toList.length == 24) && s.toList.all isHexDigit

/-- Hex is case-insensitive in ObjectId; comparison key of an id string. -/
def oidKey (s : String) : List Char :=
  s.toList.map Char.toLower

/-- The JSON payload of POST /api/expenses, with each field optional. -/
structure Payload where
  date : Option String := none
  type : Option String := none
  category : Option String := none
  amount : Option Json := none
  note : Option String := none

/-- A row of the SQLite entries table. -/
structure SqlEntry where
  id : Nat
  date : String
  type : String
  category : String
  amount : ℚ
  note : String
deriving DecidableEq

/-- The SQLite database state: the rows in insertion order, and the next
AUTOINCREMENT id. -/
structure SqliteDB where
  entries : List SqlEntry
  seq : Nat
deriving DecidableEq

/-- The empty SQLite database right after init_db; AUTOINCREMENT starts at 1. -/
def dbEmpty : SqliteDB := ⟨[], 1⟩

/-- A document of the MongoDB expenses collection; oid is the hex form of
the ObjectId assigned by insert_one (lowercase as produced by str()). -/
structure MongoDoc where
  oid : String
  date : String
  type : String
  category : String
  amount : ℚ
  note : String
deriving DecidableEq

/-- The MongoDB collection state: documents in insertion order. -/
structure MongoDB where
  docs : List MongoDoc
deriving DecidableEq

/-- The empty MongoDB collection. -/
def mongoEmpty : MongoDB := ⟨[]⟩

/-- The date actually stored by api_add_entry: payload.get('date') or the
current UTC date, so a missing or empty date field falls back to today. -/
def entryDate (today : String) (d : Option String) : String :=
  match d with
  | some s => if s = "" then today else s
  | none => today

/-- api_add_entry, SQLite branch.  The amount is coerced by float() with no
try block around it, so a coercion failure escapes the handler.  The INSERT
is subject to the schema constraint CHECK(type IN ('expense','income'));
a violating insert raises sqlite3.IntegrityError, also uncaught.  On
success the response is jsonify({"status": "ok"}) with no id field. -/
def sqlite_add_entry (today : String) (p : Payload) (st : SqliteDB) :
    Except PyExn (SqliteDB × Resp) :=
  let d := entryDate today p.date
  let ty := p.type.getD "expense"
  let cat := p.category.getD "general"
  match pyFloat p.amount with
  | .error e => .error e
  | .ok amt =>
      let nt := p.note.getD ""
      if ty = "expense" ∨ ty = "income" then
        .ok ({ entries := st.entries ++ [⟨st.seq, d, ty, cat, amt, nt⟩], seq := st.seq + 1 },
             ⟨200, .obj [("status", .str "ok")]⟩)
      else .error .integrityError

/-- api_add_entry, MongoDB branch.  insert_one stores the document with no
validation of the type field and assigns a fresh ObjectId, modelled by the
explicit parameter oid; the response is jsonify({"status": "ok", "id":
str(res.inserted_id)}). -/
def mongo_add_entry (today oid : String) (p : Payload) (st : MongoDB) :
    Except PyExn (MongoDB × Resp) :=
  let d := entryDate today p.date
  let ty := p.type.getD "expense"
  let cat := p.category.getD "general"
  match pyFloat p.amount with
  | .error e => .error e
  | .ok amt =>
      let nt := p.note.getD ""
      .ok ({ docs := st.docs ++ [⟨oid, d, ty, cat, amt, nt⟩] },
           ⟨200, .obj [("status", .str "ok"), ("id", .str oid)]⟩)

/-- api_delete_entry, SQLite branch: int(entry_id) inside try/except, a
parse failure answers jsonify({"error": "invalid id"}) with status 400;
otherwise DELETE FROM entries WHERE id = numeric_id and the response
reports the numeric id as deleted whether or not a row matched. -/
def sqlite_delete_entry (entry_id : String) (st : SqliteDB) :
    Except PyExn (SqliteDB × Resp) :=
  match pyIntStr entry_id with
  | none => .ok (st, ⟨400, .obj [("error", .str "invalid id")]⟩)
  | some n =>
      .ok ({ st with entries := st.entries.filter (fun e => !((e.id : ℤ) == n)) },
           ⟨200, .obj [("deleted", .num (n : ℚ))]⟩)

/-- api_delete_entry, MongoDB branch: ObjectId(entry_id) inside try/except,
an invalid id answers a 400 error body (str(e) modelled by a fixed
message); otherwise delete_one removes the matching document, if any, and
the response reports the given id string as deleted regardless. -/
def mongo_delete_entry (entry_id : String) (st : MongoDB) :
    Except PyExn (MongoDB × Resp) :=
  if isObjectIdHex entry_id then
    .ok ({ docs := st.docs.filter (fun dd => !(dd.oid.toList == oidKey entry_id)) },
         ⟨200, .obj [("deleted", .str entry_id)]⟩)
  else
    .ok (st, ⟨400, .obj [("error", .str "invalid ObjectId")]⟩)

/-- The SELECT ordering of the SQLite list route: ORDER BY date DESC,
id DESC.  An entry sorts before another when its date is larger, with ties
broken by larger id. -/
def sqlOrd (a b : SqlEntry) : Prop :=
  b.date.toList < a.date.toList ∨ (a.date.toList = b.date.toList ∧ b.id ≤ a.id)

instance : DecidableRel sqlOrd := fun a b => by unfold sqlOrd; exact inferInstance

/-- The ordering requested by the MongoDB list route: sort=[('date', -1)],
date descending and nothing else.  Documents of equal date are left in the
collection scan order, modelled by a stable sort. -/
def mongoOrd (a b : MongoDoc) : Prop :=
  b.date.toList ≤ a.date.toList

instance : DecidableRel mongoOrd := fun a b => by unfold mongoOrd; exact inferInstance

/-- api_list_entries, SQLite branch: SELECT * FROM entries ORDER BY date
DESC, id DESC. -/
def sqlite_list_entries (st : SqliteDB) : List SqlEntry :=
  List.insertionSort sqlOrd st.entries

/-- api_list_entries (and the expenses page query), MongoDB branch:
find({}, sort=[('date', -1)]). -/
def mongo_list_entries (st : MongoDB) : List MongoDoc :=
  List.insertionSort mongoOrd st.docs

/-- A record of schemes.json: the two fields the filter reads, plus the
rest of the mapping kept opaque. -/
structure SchemeRec where
  state : String
  district : String
  rest : String
deriving DecidableEq

/-- Query-parameter normalisation of api_schemes: .lower().strip(). -/
def lowerTrim (s : String) : List Char :=
  stripWs (s.toList.map Char.toLower)

/-- The per-record predicate of api_schemes: each of state and district
passes when the (lowered, stripped) query parameter is empty or equals the
lowered — but not stripped — record field. -/
def schemeKeep (state district : List Char) (item : SchemeRec) : Bool :=
  (state.isEmpty || (item.state.toList.map Char.toLower == state)) &&
  (district.isEmpty || (item.district.toList.map Char.toLower == district))

/-- api_schemes over an already loaded schemes collection: filter by
schemeKeep, preserving order. -/
def api_schemes (state_q district_q : String) (data : List SchemeRec) : List SchemeRec :=
  data.filter (schemeKeep (lowerTrim state_q) (lowerTrim district_q))

/-- The filter as the specification reads: the record fields are also
stripped of surrounding whitespace before the comparison. -/
def schemeKeepSpec (state district : List Char) (item : SchemeRec) : Bool :=
  (state.isEmpty || (stripWs (item.state.toList.map Char.toLower) == state)) &&
  (district.isEmpty || (stripWs (item.district.toList.map Char.toLower) == district))

/-- The scheme filter as specified (record fields trimmed), for comparison
with api_schemes. -/
def spec_schemes (state_q district_q : String) (data : List SchemeRec) : List SchemeRec :=
  data.filter (schemeKeepSpec (lowerTrim state_q) (lowerTrim district_q))

/-- One item of a pesticide schedule. -/
structure ScheduleItem where
  days_after_sowing : Nat
  pesticide : String
  note : String
deriving DecidableEq

/-- The Wheat schedule of scheduler.SCHEDULES. -/
def wheatSchedule : List ScheduleItem :=
  [⟨10, "Herbicide A", "Weed control"⟩,
   ⟨25, "Fungicide B", "Rust prevention"⟩,
   ⟨40, "Insecticide C", "Aphid control"⟩]

/-- The Rice schedule of scheduler.SCHEDULES. -/
def riceSchedule : List ScheduleItem :=
  [⟨15, "Herbicide R1", "Weed control"⟩,
   ⟨30, "Fungicide R2", "Blast prevention"⟩]

/-- scheduler.SCHEDULES as an association list in source order. -/
def SCHEDULES : List (List Char × List ScheduleItem) :=
  [("Wheat".toList, wheatSchedule), ("Rice".toList, riceSchedule)]

/-- get_pesticide_schedule: default a falsy crop to Wheat, strip, then look
the name up with the Wheat schedule as fallback. -/
def get_pesticide_schedule (crop : String) : List ScheduleItem :=
  let c := stripWs (if crop = "" then "Wheat" else crop).toList
  (SCHEDULES.lookup c).getD wheatSchedule

/-- Result of next_pesticide_recommendation: either a schedule item with
its due date, or the no-upcoming-tasks message. -/
inductive Recommendation where
  | task (due_date : ℤ) (item : ScheduleItem)
  | noTasks
deriving DecidableEq

/-- The loop of next_pesticide_recommendation: first item whose due date
(sowing date plus days_after_sowing) is at or after the query date. -/
def nextFrom (sowing from_date : ℤ) : List ScheduleItem → Recommendation
  | [] => .noTasks
  | item :: rest =>
      let due := sowing + (item.days_after_sowing : ℤ)
      if from_date ≤ due then .task due item else nextFrom sowing from_date rest

/-- next_pesticide_recommendation: dates are modelled as integers counting
days, so date arithmetic with timedelta is integer arithmetic.  Sowing is
assumed 7 days before from_date. -/
def next_pesticide_recommendation (crop : String) (from_date : ℤ) : Recommendation :=
  nextFrom (from_date - 7) from_date (get_pesticide_schedule crop)

/-- The backend-independent view of a listed row that the aggregate
computation of the expenses page reads: its type and its amount. -/
def viewS (e : SqlEntry) : String × ℚ := (e.type, e.amount)

/-- The view of a listed MongoDB document, as for viewS. -/
def viewM (d : MongoDoc) : String × ℚ := (d.type, d.amount)

/-- Python sum over a generator filtered on the type field, as a left fold
from 0 as in the expenses page. -/
def sumWhere (ty : String) (rows : List (String × ℚ)) : ℚ :=
  rows.foldl (fun acc r => if r.1 = ty then acc + r.2 else acc) 0

/-- The aggregate triple of the expenses page over its listed rows:
total income, total expense, profit = total income - total expense. -/
def pageTotals (rows : List (String × ℚ)) : ℚ × ℚ × ℚ :=
  let total_income := sumWhere "income" rows
  let total_expense := sumWhere "expense" rows
  (total_income, total_expense, total_income - total_expense)

/-- The expenses page aggregates under the SQLite backend (the page lists
rows ordered as in sqlite_list_entries). -/
def expenses_page_sqlite (st : SqliteDB) : ℚ × ℚ × ℚ :=
  pageTotals ((sqlite_list_entries st).map viewS)

/-- The expenses page aggregates under the MongoDB backend. -/
def expenses_page_mongo (st : MongoDB) : ℚ × ℚ × ℚ :=
  pageTotals ((mongo_list_entries st).map viewM)

/-- A ledger request against the expenses store: an add with a payload or
a delete with a raw id string. -/
inductive LedgerOp where
  | add (p : Payload)
  | del (id : String)

/-- The SQLite state after one request; a request that raises leaves the
store unchanged (the INSERT never executed or was rolled back). -/
def sqliteStep (today : String) (op : LedgerOp) (st : SqliteDB) : SqliteDB :=
  match op with
  | .add p =>
      match sqlite_add_entry today p st with
      | .ok (st2, _) => st2
      | .error _ => st
  | .del s =>
      match sqlite_delete_entry s st with
      | .ok (st2, _) => st2
      | .error _ => st

/-- The SQLite state after a sequence of requests. -/
def sqliteRun (today : String) (ops : List LedgerOp) (st : SqliteDB) : SqliteDB :=
  ops.foldl (fun s op => sqliteStep today op s) st

/-- Boolean form of the stored-type invariant of the entries schema. -/
def allTypesOK (l : List SqlEntry) : Bool :=
  l.all (fun e => e.type == "expense" || e.type == "income")

/-- Totality of the SQLite ordering. -/
lemma sqlOrd_total (a b : SqlEntry) : sqlOrd a b ∨ sqlOrd b a := by
  rcases lt_trichotomy a.date.toList b.date.toList with h | h | h
  · exact Or.inr (Or.inl h)
  · rcases Nat.le_total a.id b.id with hid | hid
    · exact Or.inr (Or.inr ⟨h.symm, hid⟩)
    · exact Or.inl (Or.inr ⟨h, hid⟩)
  · exact Or.inl (Or.inl h)

instance : IsTotal SqlEntry sqlOrd := ⟨sqlOrd_total⟩

instance : IsTrans SqlEntry sqlOrd := by
  constructor
  intro a b c hab hbc
  rcases hab with hab | ⟨hab1, hab2⟩
  · rcases hbc with hbc | ⟨hbc1, hbc2⟩
    · exact Or.inl (lt_trans hbc hab)
    · exact Or.inl (hbc1 ▸ hab)
  · rcases hbc with hbc | ⟨hbc1, hbc2⟩
    · refine Or.inl ?_
      rw [hab1]
      exact hbc
    · exact Or.inr ⟨hab1.trans hbc1, le_trans hbc2 hab2⟩

instance : IsTotal MongoDoc mongoOrd := ⟨fun a b => le_total b.date.toList a.date.toList⟩

instance : IsTrans MongoDoc mongoOrd := ⟨fun _ _ _ hab hbc => le_trans hbc hab⟩

/-- The ordering that claim C1 asserts for the document backend: date
descending, ties broken by id descending. -/
def mongoSpecOrd (a b : MongoDoc) : Prop :=
  b.date.toList < a.date.toList ∨ (a.date.toList = b.date.toList ∧ b.oid.toList ≤ a.oid.toList)

/-- Two same-day documents inserted in id order. -/
def tieDocA : MongoDoc := ⟨"6500000000000000000000a1", "2024-01-05", "expense", "general", 5, ""⟩

/-- The later same-day document, with the larger id. -/
def tieDocB : MongoDoc := ⟨"6500000000000000000000a2", "2024-01-05", "income", "general", 5, ""⟩

/-- A document-backend state holding two same-day entries. -/
def tieState : MongoDB := ⟨[tieDocA, tieDocB]⟩

/-- C1 counterexample: under the document backend the listing of two
same-day entries keeps them in insertion order (smaller id first), so it is
not sorted with ties broken by id descending as the claim states. -/
theorem C1_counterexample :
    mongo_list_entries tieState = [tieDocA, tieDocB] ∧
    ¬ List.Sorted mongoSpecOrd (mongo_list_entries tieState) := by
  constructor
  · rfl
  · have e : mongo_list_entries tieState = [tieDocA, tieDocB] := rfl
    rw [e]
    intro h
    have h1 : mongoSpecOrd tieDocA tieDocB :=
      List.rel_of_sorted_cons h _ (List.mem_singleton_self _)
    rcases h1 with h1 | ⟨-, h2⟩
    · exact absurd h1 (by decide)
    · exact absurd h2 (by decide)

/-- C1 amended: for every stored state (hence for every insertion order)
the relational listing is a permutation of the stored entries sorted by
date descending with ties by id descending, while the document listing is a
permutation of the stored documents sorted by date descending only, with
same-day documents left in insertion order. -/
theorem C1_amended (sst : SqliteDB) (mst : MongoDB) :
    (sqlite_list_entries sst).Perm sst.entries ∧
    List.Sorted sqlOrd (sqlite_list_entries sst) ∧
    (mongo_list_entries mst).Perm mst.docs ∧
    List.Sorted mongoOrd (mongo_list_entries mst) :=
  ⟨List.perm_insertionSort _ _, List.sorted_insertionSort _ _,
   List.perm_insertionSort _ _, List.sorted_insertionSort _ _⟩

/-- C3: deleting a well-formed id that matches no stored entry succeeds,
reports that id as deleted, and leaves the store unchanged, under both
backends. -/
theorem C3_delete_nonexistent_ok (sid moid : String) (n : ℤ) (sst : SqliteDB) (mst : MongoDB)
    (hs : pyIntStr sid = some n) (hsab : ∀ e ∈ sst.entries, (e.id : ℤ) ≠ n)
    (hmv : isObjectIdHex moid = true) (hmab : ∀ dd ∈ mst.docs, dd.oid.toList ≠ oidKey moid) :
    sqlite_delete_entry sid sst = .ok (sst, ⟨200, .obj [("deleted", .num (n : ℚ))]⟩) ∧
    mongo_delete_entry moid mst = .ok (mst, ⟨200, .obj [("deleted", .str moid)]⟩) := by
  constructor
  · have hf : sst.entries.filter (fun e => !((e.id : ℤ) == n)) = sst.entries := by
      apply List.filter_eq_self.mpr
      intro e he
      simp [hsab e he]
    simp [sqlite_delete_entry, hs, hf]
  · rcases mst with ⟨docs⟩
    have hf : docs.filter (fun dd => !(dd.oid.toList == oidKey moid)) = docs := by
      apply List.filter_eq_self.mpr
      intro dd hdd
      have hne := hmab dd hdd
      simp only [Bool.not_eq_eq_eq_not, Bool.not_true]
      exact beq_eq_false_iff_ne.mpr hne
    simp only [mongo_delete_entry]
    rw [if_pos hmv, hf]

/-- A well-formed 24-hex ObjectId string. -/
def oidEx : String := "6500000000000000000000a1"

/-- C3 witness: deleting id 5 from the empty relational store and a valid
ObjectId from the empty document store both report success. -/
theorem C3_witness :
    sqlite_delete_entry "5" dbEmpty = .ok (dbEmpty, ⟨200, .obj [("deleted", .num ((5 : ℤ) : ℚ))]⟩) ∧
    mongo_delete_entry oidEx mongoEmpty = .ok (mongoEmpty, ⟨200, .obj [("deleted", .str oidEx)]⟩) :=
  C3_delete_nonexistent_ok "5" oidEx 5 dbEmpty mongoEmpty rfl
    (by intro e he; simp [dbEmpty] at he) rfl
    (by intro dd hdd; simp [mongoEmpty] at hdd)

/-- C4: under the relational backend a non-integer id string makes
deleteEntry answer the invalid-id error body with status 400, raising no
exception and leaving the store unchanged. -/
theorem C4_malformed_id (s : String) (sst : SqliteDB) (h : pyIntStr s = none) :
    sqlite_delete_entry s sst = .ok (sst, ⟨400, .obj [("error", .str "invalid id")]⟩) := by
  simp [sqlite_delete_entry, h]

/-- C4 witness at the non-numeric id string abc. -/
theorem C4_witness :
    sqlite_delete_entry "abc" dbEmpty = .ok (dbEmpty, ⟨400, .obj [("error", .str "invalid id")]⟩) :=
  C4_malformed_id "abc" dbEmpty rfl

/-- The loop of next_pesticide_recommendation returns the first schedule
item whose due date is at or after the query date. -/
lemma nextFrom_find (sow d : ℤ) (l : List ScheduleItem) :
    nextFrom sow d l =
      match l.find? (fun it => decide (d ≤ sow + (it.days_after_sowing : ℤ))) with
      | some it => Recommendation.task (sow + (it.days_after_sowing : ℤ)) it
      | none => Recommendation.noTasks := by
  induction l with
  | nil => rfl
  | cons a l ih =>
      by_cases h : d ≤ sow + (a.days_after_sowing : ℤ)
      · simp [nextFrom, List.find?_cons, h]
      · simp [nextFrom, List.find?_cons, h, ih]

/-- C9: next_pesticide_recommendation takes sowing 7 days before the query
date, computes each due date as sowing plus days_after_sowing, and returns
the first schedule item whose due date is at or after the query date with
that due date, or the no-upcoming-tasks sentinel when no item qualifies. -/
theorem C9_next_recommendation (crop : String) (d : ℤ) :
    next_pesticide_recommendation crop d =
      match (get_pesticide_schedule crop).find?
          (fun it => decide (d ≤ (d - 7) + (it.days_after_sowing : ℤ))) with
      | some it => Recommendation.task ((d - 7) + (it.days_after_sowing : ℤ)) it
      | none => Recommendation.noTasks := by
  simpa [next_pesticide_recommendation] using nextFrom_find (d - 7) d (get_pesticide_schedule crop)

/-- Every crop resolves to the Wheat or the Rice schedule. -/
lemma get_pesticide_schedule_cases (crop : String) :
    get_pesticide_schedule crop = wheatSchedule ∨ get_pesticide_schedule crop = riceSchedule := by
  unfold get_pesticide_schedule
  simp only [SCHEDULES, List.lookup]
  cases hw : stripWs (if crop = "" then "Wheat" else crop).toList == "Wheat".toList with
  | true => left; rfl
  | false =>
      cases hr : stripWs (if crop = "" then "Wheat" else crop).toList == "Rice".toList with
      | true => right; rfl
      | false => left; rfl

/-- When the schedule head is due at least 7 days after sowing, the fixed
7-day offset makes the head the returned item. -/
lemma next_rec_head (crop : String) (d : ℤ) (item : ScheduleItem) (rest : List ScheduleItem)
    (h : get_pesticide_schedule crop = item :: rest) (h7 : 7 ≤ item.days_after_sowing) :
    next_pesticide_recommendation crop d =
      .task (d + ((item.days_after_sowing : ℤ) - 7)) item := by
  have h7i : (7 : ℤ) ≤ (item.days_after_sowing : ℤ) := by exact_mod_cast h7
  have hd : d ≤ (d - 7) + (item.days_after_sowing : ℤ) := by omega
  have he : (d - 7) + (item.days_after_sowing : ℤ) = d + ((item.days_after_sowing : ℤ) - 7) := by
    ring
  simp only [next_pesticide_recommendation, h, nextFrom]
  rw [if_pos hd, he]

/-- C10: for every crop string and every query date the recommendation is
never the sentinel; the first item of the resolved schedule is at least 10
days after sowing, beyond the 7-day offset, so the result is always that
first item with due date the query date plus days_after_sowing minus 7. -/
theorem C10_always_first_item (crop : String) (d : ℤ) :
    next_pesticide_recommendation crop d ≠ .noTasks ∧
    ∃ item rest, get_pesticide_schedule crop = item :: rest ∧
      7 ≤ item.days_after_sowing ∧
      next_pesticide_recommendation crop d =
        .task (d + ((item.days_after_sowing : ℤ) - 7)) item := by
  rcases get_pesticide_schedule_cases crop with h | h
  · have ht := next_rec_head crop d ⟨10, "Herbicide A", "Weed control"⟩
      [⟨25, "Fungicide B", "Rust prevention"⟩, ⟨40, "Insecticide C", "Aphid control"⟩]
      (by rw [h]; rfl) (by decide)
    refine ⟨by rw [ht]; simp, _, _, by rw [h]; rfl, by decide, ht⟩
  · have ht := next_rec_head crop d ⟨15, "Herbicide R1", "Weed control"⟩
      [⟨30, "Fungicide R2", "Blast prevention"⟩]
      (by rw [h]; rfl) (by decide)
    refine ⟨by rw [ht]; simp, _, _, by rw [h]; rfl, by decide, ht⟩

/-- A payload whose amount field does not coerce to a float. -/
def pBadAmount : Payload := { amount := some (.str "abc") }

/-- A payload with a valid type and a numeric amount. -/
def pGoodAmount : Payload := { type := some "income", amount := some (.num 5) }

/-- A payload whose type lies outside the schema enumeration. -/
def pBanana : Payload := { type := some "banana", amount := some (.num 5) }

/-- C2 counterexample: a non-coercible amount makes both add handlers raise
an uncaught ValueError instead of answering a structured JSON error
payload. -/
theorem C2_counterexample :
    sqlite_add_entry "2024-01-02" pBadAmount dbEmpty = .error .valueError ∧
    mongo_add_entry "2024-01-02" oidEx pBadAmount mongoEmpty = .error .valueError := by
  constructor <;> rfl

/-- C2 amended: a non-coercible amount propagates the coercion exception
out of addEntry unhandled (no JSON error response is built), leaving the
store untouched; a coercible amount is stored exactly as its coerced
value, under both backends. -/
theorem C2_amended (today oid : String) (p : Payload) (sst : SqliteDB) (mst : MongoDB) :
    (∀ e, pyFloat p.amount = .error e →
        sqlite_add_entry today p sst = .error e ∧ mongo_add_entry today oid p mst = .error e) ∧
    (∀ q, pyFloat p.amount = .ok q →
        (∀ sst2 r, sqlite_add_entry today p sst = .ok (sst2, r) →
            ∃ en, sst2.entries = sst.entries ++ [en] ∧ en.amount = q) ∧
        (∀ mst2 r, mongo_add_entry today oid p mst = .ok (mst2, r) →
            ∃ dd, mst2.docs = mst.docs ++ [dd] ∧ dd.amount = q)) := by
  constructor
  · intro e he
    constructor
    · simp [sqlite_add_entry, he]
    · simp [mongo_add_entry, he]
  · intro q hq
    constructor
    · intro sst2 r hok
      simp only [sqlite_add_entry, hq] at hok
      by_cases hty : p.type.getD "expense" = "expense" ∨ p.type.getD "expense" = "income"
      · rw [if_pos hty] at hok
        simp only [Except.ok.injEq, Prod.mk.injEq] at hok
        refine ⟨⟨sst.seq, entryDate today p.date, p.type.getD "expense",
          p.category.getD "general", q, p.note.getD ""⟩, ?_, rfl⟩
        rw [← hok.1]
      · rw [if_neg hty] at hok
        exact absurd hok (by simp)
    · intro mst2 r hok
      simp only [mongo_add_entry, hq, Except.ok.injEq, Prod.mk.injEq] at hok
      refine ⟨⟨oid, entryDate today p.date, p.type.getD "expense",
        p.category.getD "general", q, p.note.getD ""⟩, ?_, rfl⟩
      rw [← hok.1]

/-- The relational store after adding pGoodAmount to the empty store. -/
def sqliteAfterGood : SqliteDB := ⟨[⟨1, "2024-01-02", "income", "general", 5, ""⟩], 2⟩

/-- The document stored by adding pGoodAmount with the example ObjectId. -/
def goodDocEx : MongoDoc := ⟨oidEx, "2024-01-02", "income", "general", 5, ""⟩

/-- The document store after adding pGoodAmount to the empty store. -/
def mongoAfterGood : MongoDB := ⟨[goodDocEx]⟩

/-- C2 witness: the bad amount raises under both backends, and the good
amount is stored with exactly the coerced value 5. -/
theorem C2_witness :
    (sqlite_add_entry "2024-01-02" pBadAmount dbEmpty = .error .valueError ∧
     mongo_add_entry "2024-01-02" oidEx pBadAmount mongoEmpty = .error .valueError) ∧
    (∃ en, sqliteAfterGood.entries = dbEmpty.entries ++ [en] ∧ en.amount = 5) ∧
    (∃ dd, mongoAfterGood.docs = mongoEmpty.docs ++ [dd] ∧ dd.amount = 5) :=
  ⟨(C2_amended "2024-01-02" oidEx pBadAmount dbEmpty mongoEmpty).1 .valueError rfl,
   ((C2_amended "2024-01-02" oidEx pGoodAmount dbEmpty mongoEmpty).2 5 rfl).1
     sqliteAfterGood ⟨200, .obj [("status", .str "ok")]⟩ rfl,
   ((C2_amended "2024-01-02" oidEx pGoodAmount dbEmpty mongoEmpty).2 5 rfl).2
     mongoAfterGood ⟨200, .obj [("status", .str "ok"), ("id", .str oidEx)]⟩ rfl⟩

/-- C5 counterexample: a successful relational add answers only the status
field; the response carries no id at all, so the operation does not return
the backend-assigned identifier. -/
theorem C5_counterexample :
    sqlite_add_entry "2024-01-02" pGoodAmount dbEmpty =
      .ok (sqliteAfterGood, ⟨200, .obj [("status", .str "ok")]⟩) ∧
    jsonField (Json.obj [("status", .str "ok")]) "id" = none := by
  constructor <;> rfl

/-- C5 amended: only the document backend returns the new native id (the
ObjectId hex string, both in the response and on the stored document); the
relational backend answers a bare ok with no id field. -/
theorem C5_amended (today oid : String) (p : Payload) (sst : SqliteDB) (mst : MongoDB) :
    (∀ sst2 r, sqlite_add_entry today p sst = .ok (sst2, r) →
        r = ⟨200, .obj [("status", .str "ok")]⟩ ∧ jsonField r.body "id" = none) ∧
    (∀ mst2 r, mongo_add_entry today oid p mst = .ok (mst2, r) →
        r = ⟨200, .obj [("status", .str "ok"), ("id", .str oid)]⟩ ∧
        jsonField r.body "id" = some (.str oid) ∧
        ∃ dd, mst2.docs = mst.docs ++ [dd] ∧ dd.oid = oid) := by
  constructor
  · intro sst2 r hok
    cases hq : pyFloat p.amount with
    | error e => simp [sqlite_add_entry, hq] at hok
    | ok q =>
        simp only [sqlite_add_entry, hq] at hok
        by_cases hty : p.type.getD "expense" = "expense" ∨ p.type.getD "expense" = "income"
        · rw [if_pos hty] at hok
          simp only [Except.ok.injEq, Prod.mk.injEq] at hok
          exact ⟨hok.2.symm, by rw [← hok.2]; rfl⟩
        · rw [if_neg hty] at hok
          exact absurd hok (by simp)
  · intro mst2 r hok
    cases hq : pyFloat p.amount with
    | error e => simp [mongo_add_entry, hq] at hok
    | ok q =>
        simp only [mongo_add_entry, hq, Except.ok.injEq, Prod.mk.injEq] at hok
        refine ⟨hok.2.symm, by rw [← hok.2]; rfl, ?_⟩
        refine ⟨⟨oid, entryDate today p.date, p.type.getD "expense",
          p.category.getD "general", q, p.note.getD ""⟩, ?_, rfl⟩
        rw [← hok.1]

/-- C5 witness: the concrete responses of the two backends for the good
payload, obtained from the amended theorem. -/
theorem C5_witness :
    ((⟨200, .obj [("status", .str "ok")]⟩ : Resp) = ⟨200, .obj [("status", .str "ok")]⟩ ∧
      jsonField (Json.obj [("status", .str "ok")]) "id" = none) ∧
    ((⟨200, .obj [("status", .str "ok"), ("id", .str oidEx)]⟩ : Resp) =
        ⟨200, .obj [("status", .str "ok"), ("id", .str oidEx)]⟩ ∧
      jsonField (Json.obj [("status", .str "ok"), ("id", .str oidEx)]) "id" =
        some (.str oidEx) ∧
      ∃ dd, mongoAfterGood.docs = mongoEmpty.docs ++ [dd] ∧ dd.oid = oidEx) :=
  ⟨(C5_amended "2024-01-02" oidEx pGoodAmount dbEmpty mongoEmpty).1
      sqliteAfterGood ⟨200, .obj [("status", .str "ok")]⟩ rfl,
   (C5_amended "2024-01-02" oidEx pGoodAmount dbEmpty mongoEmpty).2
      mongoAfterGood ⟨200, .obj [("status", .str "ok"), ("id", .str oidEx)]⟩ rfl⟩

/-- Sum of the amounts of the rows of a given type, the form the
specification states: filter on the type, project the amounts, sum. -/
def sumOfType (ty : String) (rows : List (String × ℚ)) : ℚ :=
  ((rows.filter (fun r => r.1 == ty)).map Prod.snd).sum

/-- The page's generator sum, as a fold from any accumulator, equals the
accumulator plus the filter-map sum. -/
lemma sumWhere_foldl (ty : String) (rows : List (String × ℚ)) :
    ∀ acc : ℚ, rows.foldl (fun a r => if r.1 = ty then a + r.2 else a) acc =
      acc + sumOfType ty rows := by
  induction rows with
  | nil => intro acc; simp [sumOfType]
  | cons r rows ih =>
      intro acc
      by_cases h : r.1 = ty
      · simp [List.foldl_cons, h, ih, sumOfType, List.filter_cons, add_assoc]
      · simp [List.foldl_cons, h, ih, sumOfType, List.filter_cons]

/-- The page's generator sum equals the filter-map sum. -/
lemma sumWhere_eq (ty : String) (rows : List (String × ℚ)) :
    sumWhere ty rows = sumOfType ty rows := by
  simpa [sumWhere] using sumWhere_foldl ty rows 0

/-- The filter-map sum is invariant under permutation of the rows. -/
lemma sumOfType_perm (ty : String) {l1 l2 : List (String × ℚ)} (h : l1.Perm l2) :
    sumOfType ty l1 = sumOfType ty l2 :=
  List.Perm.sum_eq ((h.filter _).map _)

/-- C6: under either backend the expenses page computes total income as the
sum of the amounts of the stored entries of type income, total expense
likewise over type expense, and profit exactly as their difference, with
all three zero over the empty store. -/
theorem C6_aggregates (sst : SqliteDB) (mst : MongoDB) :
    expenses_page_sqlite sst =
      (sumOfType "income" (sst.entries.map viewS), sumOfType "expense" (sst.entries.map viewS),
       sumOfType "income" (sst.entries.map viewS) - sumOfType "expense" (sst.entries.map viewS)) ∧
    expenses_page_mongo mst =
      (sumOfType "income" (mst.docs.map viewM), sumOfType "expense" (mst.docs.map viewM),
       sumOfType "income" (mst.docs.map viewM) - sumOfType "expense" (mst.docs.map viewM)) ∧
    expenses_page_sqlite dbEmpty = (0, 0, 0) ∧
    expenses_page_mongo mongoEmpty = (0, 0, 0) := by
  have hS : ((sqlite_list_entries sst).map viewS).Perm (sst.entries.map viewS) :=
    (List.perm_insertionSort _ _).map _
  have hM : ((mongo_list_entries mst).map viewM).Perm (mst.docs.map viewM) :=
    (List.perm_insertionSort _ _).map _
  refine ⟨?_, ?_, ?_, ?_⟩
  · simp [expenses_page_sqlite, pageTotals, sumWhere_eq, sumOfType_perm _ hS]
  · simp [expenses_page_mongo, pageTotals, sumWhere_eq, sumOfType_perm _ hM]
  · simp [expenses_page_sqlite, pageTotals, sumWhere, sqlite_list_entries, dbEmpty,
      List.insertionSort]
  · simp [expenses_page_mongo, pageTotals, sumWhere, mongo_list_entries, mongoEmpty,
      List.insertionSort]

/-- C7 counterexample: the document backend persists an entry whose type is
banana, outside the expense/income enumeration, and reports success. -/
theorem C7_counterexample :
    mongo_add_entry "2024-01-02" oidEx pBanana mongoEmpty =
      .ok (⟨[⟨oidEx, "2024-01-02", "banana", "general", 5, ""⟩]⟩,
           ⟨200, .obj [("status", .str "ok"), ("id", .str oidEx)]⟩) ∧
    ¬ (("banana" : String) = "expense" ∨ ("banana" : String) = "income") := by
  exact ⟨rfl, by decide⟩

/-- One request leaves the relational type invariant intact: a valid add
appends a checked entry, an invalid one raises and changes nothing, a
delete only removes rows. -/
lemma sqliteStep_types (today : String) (op : LedgerOp) (st : SqliteDB)
    (h : allTypesOK st.entries = true) : allTypesOK (sqliteStep today op st).entries = true := by
  cases op with
  | add p =>
      cases hf : pyFloat p.amount with
      | error e => simp [sqliteStep, sqlite_add_entry, hf, h]
      | ok q =>
          by_cases hty : p.type.getD "expense" = "expense" ∨ p.type.getD "expense" = "income"
          · simp only [sqliteStep, sqlite_add_entry, hf, if_pos hty]
            simp only [allTypesOK, List.all_append, Bool.and_eq_true] at h ⊢
            refine ⟨h, ?_⟩
            rcases hty with hty | hty <;> simp [hty]
          · simp [sqliteStep, sqlite_add_entry, hf, if_neg hty, h]
  | del s =>
      cases hp : pyIntStr s with
      | none => simp [sqliteStep, sqlite_delete_entry, hp, h]
      | some n =>
          simp only [sqliteStep, sqlite_delete_entry, hp]
          simp only [allTypesOK, List.all_eq_true] at h ⊢
          intro e he
          exact h e (List.mem_of_mem_filter he)

/-- C7 amended: under the relational backend the CHECK constraint keeps
every stored entry's type in the expense/income enumeration across any
sequence of add and delete requests (amounts are numeric by coercion);
the document backend enforces no such invariant. -/
theorem C7_amended (today : String) (ops : List LedgerOp) (sst : SqliteDB)
    (h : allTypesOK sst.entries = true) :
    allTypesOK (sqliteRun today ops sst).entries = true := by
  induction ops generalizing sst with
  | nil => simpa [sqliteRun] using h
  | cons op ops ih =>
      have h1 := sqliteStep_types today op sst h
      simpa [sqliteRun, List.foldl_cons] using ih (sqliteStep today op sst) h1

/-- A request mix: valid adds, an add with a bad type, an add with a bad
amount, a delete of an id, a delete of a malformed id. -/
def opsEx : List LedgerOp :=
  [.add pGoodAmount, .add pBanana, .add pBadAmount, .del "1", .del "zzz"]

/-- C7 witness: the invariant holds after running the request mix from the
empty relational store. -/
theorem C7_witness : allTypesOK (sqliteRun "2024-01-02" opsEx dbEmpty).entries = true :=
  C7_amended "2024-01-02" opsEx dbEmpty rfl

/-- A scheme record whose state field carries surrounding whitespace. -/
def paddedScheme : SchemeRec := ⟨" goa", "nagpur", "X"⟩

/-- C8 counterexample: the code lowercases but never trims the record's
state field, so with state parameter goa the padded record is dropped while
the claim's trimmed comparison keeps it. -/
theorem C8_counterexample :
    api_schemes "goa" "" [paddedScheme] = [] ∧
    spec_schemes "goa" "" [paddedScheme] = [paddedScheme] := by
  constructor <;> rfl

/-- C8 amended: the filter keeps exactly the records whose lowercased (but
untrimmed) state field equals the lowercased and trimmed state parameter or
where that parameter is blank, and likewise for district, both required,
preserving source order; with both parameters blank every record is
returned unchanged. -/
theorem C8_amended (q1 q2 : String) (data : List SchemeRec) :
    (api_schemes q1 q2 data).Sublist data ∧
    (∀ item, item ∈ api_schemes q1 q2 data ↔ item ∈ data ∧
        ((lowerTrim q1 = [] ∨ item.state.toList.map Char.toLower = lowerTrim q1) ∧
         (lowerTrim q2 = [] ∨ item.district.toList.map Char.toLower = lowerTrim q2))) ∧
    (lowerTrim q1 = [] → lowerTrim q2 = [] → api_schemes q1 q2 data = data) := by
  refine ⟨List.filter_sublist _, ?_, ?_⟩
  · intro item
    simp [api_schemes, List.mem_filter, schemeKeep, List.isEmpty_iff]
  · intro h1 h2
    apply List.filter_eq_self.mpr
    intro item _
    simp [schemeKeep, h1, h2]

/-- Two loaded scheme records. -/
def schemesEx : List SchemeRec := [⟨"Goa", "North Goa", "A"⟩, ⟨"Maharashtra", "Nagpur", "B"⟩]

/-- C8 witness: blank state and whitespace-only district return the whole
collection unchanged. -/
theorem C8_witness : api_schemes "" " " schemesEx = schemesEx :=
  (C8_amended "" " " schemesEx).2.2 rfl rfl
